import Mathlib

/-!
Verification of the duplication checker of `bytecode-verifier/src/check_duplication.rs`.

The file embeds the checker shallowly: `first_duplicate_element` and the
eighteen checks run by `DuplicationChecker::verify` are translated into
executable Lean functions over a `CompiledModule` record.  The pieces of the
module representation that live outside the checker's own source file
(the `vm::file_format` data types and the `ModuleAccess` accessors) are
modelled from the specification's data-model section; index types that are
`u16` in the source are modelled as `Nat`, with the `as u16` cast written as
`% 65536` where the source performs it.
-/

/-! ## Definitions -/

/-- Worker for `first_duplicate_element`: `seen` is the set of already
scanned keys (the Rust `HashSet`, modelled by a list consulted only through
membership), `i` the position of the head of the remaining input. -/
def fdeAux {α : Type} [DecidableEq α] (seen : List α) (i : Nat) : List α → Option Nat
  | [] => none
  | x :: xs => if x ∈ seen then some i else fdeAux (x :: seen) (i + 1) xs

/-- Translation of `DuplicationChecker::first_duplicate_element`: position of
the first element equal to an earlier element, if any. -/
def first_duplicate_element {α : Type} [DecidableEq α] (l : List α) : Option Nat :=
  fdeAux [] 0 l

/-- Position `i` of `l` repeats an earlier element. -/
def dupAt {α : Type} (l : List α) (i : Nat) : Prop :=
  ∃ x, l[i]? = some x ∧ x ∈ l.take i

/-- Position `i` is the first position of `l` that repeats an earlier
element: the second occurrence of the first value observed to repeat in a
left-to-right scan. -/
def isFirstDup {α : Type} (l : List α) (i : Nat) : Prop :=
  dupAt l i ∧ ∀ j, j < i → ¬ dupAt l j

instance instDecDupAt {α : Type} [DecidableEq α] (l : List α) (i : Nat) :
    Decidable (dupAt l i) :=
  match hx : l[i]? with
  | some x =>
    if hm : x ∈ l.take i then
      isTrue ⟨x, hx, hm⟩
    else
      isFalse (by
        rintro ⟨y, hy, hmem⟩
        rw [hx] at hy
        injection hy with hy
        exact hm (hy ▸ hmem))
  | none =>
    isFalse (by
      rintro ⟨y, hy, _⟩
      rw [hx] at hy
      exact Option.noConfusion hy)

instance instDecIsFirstDup {α : Type} [DecidableEq α] (l : List α) (i : Nat) :
    Decidable (isFirstDup l i) :=
  inferInstanceAs (Decidable (dupAt l i ∧ ∀ j, j < i → ¬ dupAt l j))

/-- Variant of `dupAt` for the scanner worker: position `k` of the remaining
input `xs` repeats either a key in `seen` or an earlier element of `xs`. -/
def dupAtFrom {α : Type} (seen xs : List α) (k : Nat) : Prop :=
  ∃ x, xs[k]? = some x ∧ (x ∈ seen ∨ x ∈ xs.take k)

/-- Translation of Rust's `Iterator::position`: index of the first element
satisfying `p`. -/
def findIdxB {α : Type} (p : α → Bool) : List α → Option Nat
  | [] => none
  | x :: xs => if p x then some 0 else (findIdxB p xs).map (· + 1)

/-- Result of a sequence of early-return checks: the first check that
produced a violation wins, later entries are irrelevant. -/
def firstSome {α : Type} : List (Option α) → Option α
  | [] => none
  | some e :: _ => some e
  | none :: rest => firstSome rest

/-- Modelled from the spec: the table kinds named in a violation
(`vm::IndexKind`), restricted to the kinds this checker emits. -/
inductive IndexKind : Type where
  | ModuleHandle
  | StructHandle
  | FunctionHandle
  | FieldHandle
  | StructDefInstantiation
  | FunctionInstantiation
  | FieldInstantiation
  | StructDefinition
  | FieldDefinition
  | FunctionDefinition
  | Signature
  | Identifier
  | ConstantPool
deriving DecidableEq

/-- Modelled from the spec: the closed set of violation reasons
(`libra_types::vm_error::StatusCode`) this checker emits. -/
inductive StatusCode : Type where
  | DUPLICATE_ELEMENT
  | DUPLICATE_ACQUIRES_RESOURCE_ANNOTATION_ERROR
  | ZERO_SIZED_STRUCT
  | INVALID_MODULE_HANDLE
  | UNIMPLEMENTED_HANDLE
deriving DecidableEq

/-- Modelled from the spec: the violation payload is a triple of table kind,
0-based index and reason code. -/
structure VMStatus : Type where
  kind : IndexKind
  index : Nat
  reason : StatusCode
deriving DecidableEq

/-- Translation of `vm::errors::verification_error`. -/
def verification_error (kind : IndexKind) (index : Nat) (reason : StatusCode) : VMStatus :=
  ⟨kind, index, reason⟩

/-- Modelled from the spec: a struct handle holds an owning module handle
index, a name index, and further non-key metadata (nominal-resource flag and
type parameters), collapsed into one opaque `extra` field. -/
structure StructHandle : Type where
  module : Nat
  name : Nat
  extra : Nat
deriving DecidableEq, Inhabited

/-- Modelled from the spec: a function handle holds an owning module handle
index, a name index, and further non-key metadata (parameter, return and
type-parameter signatures), collapsed into one opaque `extra` field. -/
structure FunctionHandle : Type where
  module : Nat
  name : Nat
  extra : Nat
deriving DecidableEq, Inhabited

/-- Modelled from the spec: a field declaration has a name index and a type
signature. -/
structure FieldDefinition : Type where
  name : Nat
  signature : Nat
deriving DecidableEq, Inhabited

/-- Modelled from the spec: field information of a struct definition —
native, or a declared ordered field list. -/
inductive StructFieldInformation : Type where
  | Native
  | Declared (fields : List FieldDefinition)
deriving DecidableEq, Inhabited

/-- Modelled from the spec: a struct definition references its struct handle
and carries its field information. -/
structure StructDefinition : Type where
  struct_handle : Nat
  field_information : StructFieldInformation
deriving DecidableEq, Inhabited

/-- Modelled from the spec: a function definition references its function
handle, lists acquired struct definitions, and carries further body/metadata
collapsed into one opaque `code` field. -/
structure FunctionDefinition : Type where
  function : Nat
  acquires_global_resources : List Nat
  code : Nat
deriving DecidableEq, Inhabited

/-- Modelled from the spec: the read-only module representation with its
index-addressed tables and the designated self module handle index.  Entries
of tables whose uniqueness key is the full value and whose structure the
checker never inspects (identifiers, constants, signatures, module handles,
field handles, the three instantiation tables) are opaque `Nat`s. -/
structure CompiledModule : Type where
  identifiers : List Nat
  constant_pool : List Nat
  signatures : List Nat
  module_handles : List Nat
  struct_handles : List StructHandle
  function_handles : List FunctionHandle
  field_handles : List Nat
  struct_instantiations : List Nat
  function_instantiations : List Nat
  field_instantiations : List Nat
  struct_defs : List StructDefinition
  function_defs : List FunctionDefinition
  self_handle_idx : Nat
deriving DecidableEq

/-- Modelled from the spec: `ModuleAccess::struct_handle_at`, table lookup by
0-based index. -/
def struct_handle_at (m : CompiledModule) (i : Nat) : StructHandle :=
  m.struct_handles.getD i default

/-- Modelled from the spec: `ModuleAccess::function_handle_at`, table lookup
by 0-based index. -/
def function_handle_at (m : CompiledModule) (i : Nat) : FunctionHandle :=
  m.function_handles.getD i default

def dupIdentifiers (m : CompiledModule) : Option VMStatus :=
  (first_duplicate_element m.identifiers).map
    (fun idx => verification_error IndexKind.Identifier idx StatusCode.DUPLICATE_ELEMENT)

def dupConstants (m : CompiledModule) : Option VMStatus :=
  (first_duplicate_element m.constant_pool).map
    (fun idx => verification_error IndexKind.ConstantPool idx StatusCode.DUPLICATE_ELEMENT)

def dupSignatures (m : CompiledModule) : Option VMStatus :=
  (first_duplicate_element m.signatures).map
    (fun idx => verification_error IndexKind.Signature idx StatusCode.DUPLICATE_ELEMENT)

def dupModuleHandles (m : CompiledModule) : Option VMStatus :=
  (first_duplicate_element m.module_handles).map
    (fun idx => verification_error IndexKind.ModuleHandle idx StatusCode.DUPLICATE_ELEMENT)

/-- Uniqueness key of the struct-handle table: `(x.module, x.name)`. -/
def structHandleKeys (m : CompiledModule) : List (Nat × Nat) :=
  m.struct_handles.map (fun x => (x.module, x.name))

/-- Uniqueness key of the function-handle table: `(x.module, x.name)`. -/
def functionHandleKeys (m : CompiledModule) : List (Nat × Nat) :=
  m.function_handles.map (fun x => (x.module, x.name))

def dupStructHandles (m : CompiledModule) : Option VMStatus :=
  (first_duplicate_element (structHandleKeys m)).map
    (fun idx => verification_error IndexKind.StructHandle idx StatusCode.DUPLICATE_ELEMENT)

def dupFunctionHandles (m : CompiledModule) : Option VMStatus :=
  (first_duplicate_element (functionHandleKeys m)).map
    (fun idx => verification_error IndexKind.FunctionHandle idx StatusCode.DUPLICATE_ELEMENT)

def dupFieldHandles (m : CompiledModule) : Option VMStatus :=
  (first_duplicate_element m.field_handles).map
    (fun idx => verification_error IndexKind.FieldHandle idx StatusCode.DUPLICATE_ELEMENT)

def dupStructInstantiations (m : CompiledModule) : Option VMStatus :=
  (first_duplicate_element m.struct_instantiations).map
    (fun idx => verification_error IndexKind.StructDefInstantiation idx StatusCode.DUPLICATE_ELEMENT)

def dupFunctionInstantiations (m : CompiledModule) : Option VMStatus :=
  (first_duplicate_element m.function_instantiations).map
    (fun idx => verification_error IndexKind.FunctionInstantiation idx StatusCode.DUPLICATE_ELEMENT)

def dupFieldInstantiations (m : CompiledModule) : Option VMStatus :=
  (first_duplicate_element m.field_instantiations).map
    (fun idx => verification_error IndexKind.FieldInstantiation idx StatusCode.DUPLICATE_ELEMENT)

def dupStructDefs (m : CompiledModule) : Option VMStatus :=
  (first_duplicate_element (m.struct_defs.map StructDefinition.struct_handle)).map
    (fun idx => verification_error IndexKind.StructDefinition idx StatusCode.DUPLICATE_ELEMENT)

def dupFunctionDefs (m : CompiledModule) : Option VMStatus :=
  (first_duplicate_element (m.function_defs.map FunctionDefinition.function)).map
    (fun idx => verification_error IndexKind.FunctionDefinition idx StatusCode.DUPLICATE_ELEMENT)

/-- Acquires lists of function definitions contain unique entries. -/
def checkAcquires (m : CompiledModule) : Option VMStatus :=
  (findIdxB (fun fd => (first_duplicate_element fd.acquires_global_resources).isSome)
      m.function_defs).map
    (fun idx => verification_error IndexKind.FunctionDefinition idx
      StatusCode.DUPLICATE_ACQUIRES_RESOURCE_ANNOTATION_ERROR)

/-- Worker for the per-struct field loop: natives are skipped, a declared
empty struct fails with `ZERO_SIZED_STRUCT` at the struct's index, a repeated
field name fails with `DUPLICATE_ELEMENT` at the field's in-struct index. -/
def checkFieldsAux : List StructDefinition → Nat → Option VMStatus
  | [], _ => none
  | sd :: rest, idx =>
    match sd.field_information with
    | StructFieldInformation.Native => checkFieldsAux rest (idx + 1)
    | StructFieldInformation.Declared fields =>
      if fields.isEmpty then
        some (verification_error IndexKind.StructDefinition idx StatusCode.ZERO_SIZED_STRUCT)
      else
        match first_duplicate_element (fields.map FieldDefinition.name) with
        | some i => some (verification_error IndexKind.FieldDefinition i StatusCode.DUPLICATE_ELEMENT)
        | none => checkFieldsAux rest (idx + 1)

def checkFields (m : CompiledModule) : Option VMStatus :=
  checkFieldsAux m.struct_defs 0

/-- Each struct definition's handle is owned by the self module. -/
def checkStructOwners (m : CompiledModule) : Option VMStatus :=
  (findIdxB (fun x => !((struct_handle_at m x.struct_handle).module == m.self_handle_idx))
      m.struct_defs).map
    (fun idx => verification_error IndexKind.StructDefinition idx StatusCode.INVALID_MODULE_HANDLE)

/-- Each function definition's handle is owned by the self module. -/
def checkFunctionOwners (m : CompiledModule) : Option VMStatus :=
  (findIdxB (fun x => !((function_handle_at m x.function).module == m.self_handle_idx))
      m.function_defs).map
    (fun idx => verification_error IndexKind.FunctionDefinition idx StatusCode.INVALID_MODULE_HANDLE)

/-- Predicate of the struct totality scan at position `x`: the source builds
`StructHandleIndex::new(x as u16)`, so the handle inspected and the index
tested for membership are the one at `x % 65536`. -/
def structUnimplPred (m : CompiledModule) (x : Nat) : Bool :=
  ((struct_handle_at m (x % 65536)).module == m.self_handle_idx)
    && !((m.struct_defs.map StructDefinition.struct_handle).contains (x % 65536))

/-- Predicate of the function totality scan at position `x`, with the same
`as u16` truncation. -/
def functionUnimplPred (m : CompiledModule) (x : Nat) : Bool :=
  ((function_handle_at m (x % 65536)).module == m.self_handle_idx)
    && !((m.function_defs.map FunctionDefinition.function).contains (x % 65536))

/-- Every struct handle owned by the self module has a definition. -/
def checkStructTotality (m : CompiledModule) : Option VMStatus :=
  (findIdxB (fun x => structUnimplPred m x) (List.range m.struct_handles.length)).map
    (fun idx => verification_error IndexKind.StructHandle idx StatusCode.UNIMPLEMENTED_HANDLE)

/-- Every function handle owned by the self module has a definition. -/
def checkFunctionTotality (m : CompiledModule) : Option VMStatus :=
  (findIdxB (fun x => functionUnimplPred m x) (List.range m.function_handles.length)).map
    (fun idx => verification_error IndexKind.FunctionHandle idx StatusCode.UNIMPLEMENTED_HANDLE)

/-- All checks of `DuplicationChecker::verify`, in source order. -/
def checkResults (m : CompiledModule) : List (Option VMStatus) :=
  [dupIdentifiers m, dupConstants m, dupSignatures m, dupModuleHandles m,
   dupStructHandles m, dupFunctionHandles m, dupFieldHandles m,
   dupStructInstantiations m, dupFunctionInstantiations m, dupFieldInstantiations m,
   dupStructDefs m, dupFunctionDefs m, checkAcquires m, checkFields m,
   checkStructOwners m, checkFunctionOwners m, checkStructTotality m, checkFunctionTotality m]

/-- Translation of `DuplicationChecker::verify`: the checks run in source
order with early return on the first violation. -/
def verify (m : CompiledModule) : Except VMStatus Unit :=
  match firstSome (checkResults m) with
  | some e => Except.error e
  | none => Except.ok ()

/-- The first `n` checks of `verify` pass on `m`. -/
def passesFirst (n : Nat) (m : CompiledModule) : Prop :=
  ∀ j, j < n → (checkResults m).getD j none = none

instance instDecPassesFirst (n : Nat) (m : CompiledModule) :
    Decidable (passesFirst n m) :=
  inferInstanceAs (Decidable (∀ j, j < n → (checkResults m).getD j none = none))

instance instDecEqExceptVM : DecidableEq (Except VMStatus Unit) := fun a b =>
  match a, b with
  | Except.error e₁, Except.error e₂ =>
    if h : e₁ = e₂ then isTrue (h ▸ rfl) else isFalse (fun hc => h (Except.error.inj hc))
  | Except.ok u₁, Except.ok u₂ => isTrue (by cases u₁; cases u₂; rfl)
  | Except.error _, Except.ok _ => isFalse (fun hc => Except.noConfusion hc)
  | Except.ok _, Except.error _ => isFalse (fun hc => Except.noConfusion hc)

/-- Totality predicate read off the specification, without the `as u16`
truncation: position `x` is compared against the handle actually stored at
`x`. -/
def structUnimplDirect (m : CompiledModule) (x : Nat) : Bool :=
  ((struct_handle_at m x).module == m.self_handle_idx)
    && !((m.struct_defs.map StructDefinition.struct_handle).contains x)

/-- Function-handle analogue of `structUnimplDirect`. -/
def functionUnimplDirect (m : CompiledModule) (x : Nat) : Bool :=
  ((function_handle_at m x).module == m.self_handle_idx)
    && !((m.function_defs.map FunctionDefinition.function).contains x)

/-- Claim-side reading of a struct totality violation: position `x` of the
struct-handle table holds a handle owned by the self module and no struct
definition references `x`. -/
def structUnimpl (m : CompiledModule) (x : Nat) : Prop :=
  x < m.struct_handles.length ∧
    (struct_handle_at m x).module = m.self_handle_idx ∧
    ∀ d ∈ m.struct_defs, d.struct_handle ≠ x

instance instDecStructUnimpl (m : CompiledModule) (x : Nat) :
    Decidable (structUnimpl m x) :=
  inferInstanceAs (Decidable (_ ∧ _ ∧ _))

/-- A struct definition passes the per-struct field rules: it is native, or
it declares a nonempty field list with pairwise-distinct names. -/
def structFieldsOk (sd : StructDefinition) : Prop :=
  sd.field_information = StructFieldInformation.Native ∨
    ∃ fields, sd.field_information = StructFieldInformation.Declared fields ∧
      fields ≠ [] ∧ (fields.map FieldDefinition.name).Nodup

instance instDecStructFieldsOk : (sd : StructDefinition) → Decidable (structFieldsOk sd) :=
  fun sd =>
  match hfi : sd.field_information with
  | StructFieldInformation.Native => isTrue (Or.inl hfi)
  | StructFieldInformation.Declared fields =>
    if h : fields ≠ [] ∧ (fields.map FieldDefinition.name).Nodup then
      isTrue (Or.inr ⟨fields, hfi, h.1, h.2⟩)
    else
      isFalse (by
        rintro (h1 | ⟨fs, hfs, hne, hnd⟩)
        · exact StructFieldInformation.noConfusion (h1.symm.trans hfi)
        · have hd := hfs.symm.trans hfi
          injection hd with hd
          subst hd
          exact h ⟨hne, hnd⟩)

/-- A module with every table empty. -/
def emptyModule : CompiledModule :=
  ⟨[], [], [], [], [], [], [], [], [], [], [], [], 0⟩

/-- Module with a duplicate identifier at position 1. -/
def exDupIdent : CompiledModule :=
  { emptyModule with identifiers := [7, 7] }

/-- Module whose struct-handle table repeats key `(0, 0)` at positions 0 and
2 and key `(0, 1)` at positions 1 and 3, metadata differing. -/
def exTwoDupPairs : CompiledModule :=
  { emptyModule with
    module_handles := [0],
    struct_handles := [⟨0, 0, 0⟩, ⟨0, 1, 0⟩, ⟨0, 0, 1⟩, ⟨0, 1, 1⟩] }

/-- Module with two struct handles sharing key `(0, 0)` but differing in
metadata. -/
def exMetaDup : CompiledModule :=
  { emptyModule with
    module_handles := [0],
    struct_handles := [⟨0, 0, 0⟩, ⟨0, 0, 1⟩] }

/-- Module with two function handles sharing key `(0, 0)` but differing in
metadata. -/
def exMetaDupFn : CompiledModule :=
  { emptyModule with
    module_handles := [0],
    function_handles := [⟨0, 0, 0⟩, ⟨0, 0, 1⟩] }

/-- Module whose struct-handle keys are pairwise distinct. -/
def exDistinctKeys : CompiledModule :=
  { emptyModule with
    struct_handles := [⟨0, 0, 0⟩, ⟨0, 1, 0⟩],
    function_handles := [⟨0, 0, 0⟩, ⟨1, 0, 0⟩] }

/-- Module with a struct definition owned by module handle 1 (not self) and
a duplicate identifier: the identifier check preempts the ownership check. -/
def exOwnerPreempted : CompiledModule :=
  { emptyModule with
    identifiers := [9, 9],
    module_handles := [10, 20],
    struct_handles := [⟨1, 0, 0⟩],
    struct_defs := [⟨0, StructFieldInformation.Native⟩] }

/-- Module whose only struct definition is owned by module handle 1, not the
self handle. -/
def exBadStructOwner : CompiledModule :=
  { emptyModule with
    module_handles := [10, 20],
    struct_handles := [⟨1, 0, 0⟩],
    struct_defs := [⟨0, StructFieldInformation.Native⟩] }

/-- Module whose only function definition is owned by module handle 1, not
the self handle. -/
def exBadFunctionOwner : CompiledModule :=
  { emptyModule with
    module_handles := [10, 20],
    function_handles := [⟨1, 0, 0⟩],
    function_defs := [⟨0, [], 0⟩] }

/-- Module whose struct 0 has a duplicated field name and whose struct 1
declares zero fields. -/
def exDupThenEmpty : CompiledModule :=
  { emptyModule with
    module_handles := [0],
    struct_handles := [⟨0, 0, 0⟩, ⟨0, 1, 0⟩],
    struct_defs := [⟨0, StructFieldInformation.Declared [⟨5, 0⟩, ⟨5, 1⟩]⟩,
                    ⟨1, StructFieldInformation.Declared []⟩] }

/-- Module whose struct 0 declares zero fields and whose struct 1 has field
names `[0, 1, 0]`. -/
def exEmptyThenDup : CompiledModule :=
  { emptyModule with
    module_handles := [0],
    struct_handles := [⟨0, 0, 0⟩, ⟨0, 1, 0⟩],
    struct_defs := [⟨0, StructFieldInformation.Declared []⟩,
                    ⟨1, StructFieldInformation.Declared [⟨0, 0⟩, ⟨1, 0⟩, ⟨0, 1⟩]⟩] }

/-- Module with a single zero-field declared struct. -/
def exZeroField : CompiledModule :=
  { emptyModule with
    module_handles := [0],
    struct_handles := [⟨0, 0, 0⟩],
    struct_defs := [⟨0, StructFieldInformation.Declared []⟩] }

/-- Module with a single native struct definition. -/
def exNative : CompiledModule :=
  { emptyModule with
    module_handles := [0],
    struct_handles := [⟨0, 0, 0⟩],
    struct_defs := [⟨0, StructFieldInformation.Native⟩] }

/-- Module with a single struct whose field names are `[0, 1, 0]`. -/
def exFieldDup : CompiledModule :=
  { emptyModule with
    module_handles := [0],
    struct_handles := [⟨0, 0, 0⟩],
    struct_defs := [⟨0, StructFieldInformation.Declared [⟨0, 0⟩, ⟨1, 0⟩, ⟨0, 1⟩]⟩] }

/-- Module with two structs whose field lists reuse the same name across
structs, each struct internally duplicate-free. -/
def exCrossStructNames : CompiledModule :=
  { emptyModule with
    module_handles := [0],
    struct_handles := [⟨0, 0, 0⟩, ⟨0, 1, 0⟩],
    struct_defs := [⟨0, StructFieldInformation.Declared [⟨0, 0⟩]⟩,
                    ⟨1, StructFieldInformation.Declared [⟨0, 0⟩]⟩] }

/-- Module whose function 0 has no acquires and whose function 1 acquires
struct definition 2 twice. -/
def exDupAcquires : CompiledModule :=
  { emptyModule with
    module_handles := [0],
    function_handles := [⟨0, 0, 0⟩, ⟨0, 1, 0⟩],
    function_defs := [⟨0, [], 0⟩, ⟨1, [2, 2], 0⟩] }

/-- Module whose two functions each acquire struct definition 3 once. -/
def exSharedAcquires : CompiledModule :=
  { emptyModule with
    module_handles := [0],
    function_handles := [⟨0, 0, 0⟩, ⟨0, 1, 0⟩],
    function_defs := [⟨0, [3], 0⟩, ⟨1, [3], 0⟩] }

/-- Module with two self-owned struct handles and no struct definitions:
both handle positions are unimplemented. -/
def exTwoUnimpl : CompiledModule :=
  { emptyModule with
    module_handles := [0],
    struct_handles := [⟨0, 0, 0⟩, ⟨0, 1, 0⟩] }

/-- Module with one self-owned struct handle and no struct definition. -/
def exOneUnimpl : CompiledModule :=
  { emptyModule with
    module_handles := [0],
    struct_handles := [⟨0, 0, 0⟩] }

/-- Module with one self-owned struct handle and one self-owned function
handle, neither implemented. -/
def exOneUnimplBoth : CompiledModule :=
  { emptyModule with
    struct_handles := [⟨0, 0, 0⟩],
    function_handles := [⟨0, 0, 0⟩] }

/-- Handle `n` of the oversized module: position 65536 carries the only
self-owned handle, every other position a handle owned by module 1. -/
def bigHandleFn (n : Nat) : StructHandle :=
  ⟨if n = 65536 then 0 else 1, n, 0⟩

/-- Module whose struct-handle table has 65537 entries, exceeding the `u16`
index range: the self-owned handle at position 65536 is unimplemented, yet
the totality scan inspects the handle at `65536 % 65536 = 0` there. -/
def bigModule : CompiledModule :=
  { emptyModule with
    module_handles := [0],
    struct_handles := (List.range 65537).map bigHandleFn }

/-! ## Theorems -/

theorem dupAtFrom_cons_zero {α : Type} (seen xs : List α) (x : α) :
    dupAtFrom seen (x :: xs) 0 ↔ x ∈ seen := by
  simp [dupAtFrom]

theorem dupAtFrom_cons_succ {α : Type} (seen xs : List α) (x : α) (k : Nat) :
    dupAtFrom seen (x :: xs) (k + 1) ↔ dupAtFrom (x :: seen) xs k := by
  simp only [dupAtFrom, List.getElem?_cons_succ, List.take_succ_cons, List.mem_cons]
  constructor
  · rintro ⟨y, hy, h | (h | h)⟩
    · exact ⟨y, hy, Or.inl (Or.inr h)⟩
    · exact ⟨y, hy, Or.inl (Or.inl h)⟩
    · exact ⟨y, hy, Or.inr h⟩
  · rintro ⟨y, hy, (h | h) | h⟩
    · exact ⟨y, hy, Or.inr (Or.inl h)⟩
    · exact ⟨y, hy, Or.inl h⟩
    · exact ⟨y, hy, Or.inr (Or.inr h)⟩

theorem fdeAux_eq_some_iff {α : Type} [DecidableEq α] (xs : List α) :
    ∀ (seen : List α) (i r : Nat),
      fdeAux seen i xs = some r ↔
        ∃ k, r = i + k ∧ dupAtFrom seen xs k ∧ ∀ j, j < k → ¬ dupAtFrom seen xs j := by
  induction xs with
  | nil =>
    intro seen i r
    simp [fdeAux, dupAtFrom]
  | cons x xs ih =>
    intro seen i r
    by_cases hx : x ∈ seen
    · simp only [fdeAux, if_pos hx]
      constructor
      · intro h
        injection h with h
        exact ⟨0, by omega, (dupAtFrom_cons_zero seen xs x).mpr hx,
          fun j hj => absurd hj (Nat.not_lt_zero j)⟩
      · rintro ⟨k, hk, hd, hmin⟩
        cases k with
        | zero => simp [hk]
        | succ k =>
          exact absurd ((dupAtFrom_cons_zero seen xs x).mpr hx)
            (hmin 0 (Nat.succ_pos k))
    · simp only [fdeAux, if_neg hx]
      rw [ih (x :: seen) (i + 1) r]
      constructor
      · rintro ⟨k, hk, hd, hmin⟩
        refine ⟨k + 1, by omega, (dupAtFrom_cons_succ seen xs x k).mpr hd, ?_⟩
        intro j hj
        cases j with
        | zero =>
          rw [dupAtFrom_cons_zero]
          exact hx
        | succ j =>
          rw [dupAtFrom_cons_succ]
          exact hmin j (by omega)
      · rintro ⟨k, hk, hd, hmin⟩
        cases k with
        | zero => exact absurd ((dupAtFrom_cons_zero seen xs x).mp hd) hx
        | succ k =>
          refine ⟨k, by omega, (dupAtFrom_cons_succ seen xs x k).mp hd, ?_⟩
          intro j hj hc
          exact hmin (j + 1) (by omega) ((dupAtFrom_cons_succ seen xs x j).mpr hc)

theorem fdeAux_eq_none_iff {α : Type} [DecidableEq α] (xs : List α) :
    ∀ (seen : List α) (i : Nat),
      fdeAux seen i xs = none ↔ ∀ k, ¬ dupAtFrom seen xs k := by
  induction xs with
  | nil =>
    intro seen i
    simp [fdeAux, dupAtFrom]
  | cons x xs ih =>
    intro seen i
    by_cases hx : x ∈ seen
    · simp only [fdeAux, if_pos hx]
      constructor
      · intro h
        exact Option.noConfusion h
      · intro h
        exact absurd ((dupAtFrom_cons_zero seen xs x).mpr hx) (h 0)
    · simp only [fdeAux, if_neg hx]
      rw [ih (x :: seen) (i + 1)]
      constructor
      · intro h k
        cases k with
        | zero =>
          rw [dupAtFrom_cons_zero]
          exact hx
        | succ k =>
          rw [dupAtFrom_cons_succ]
          exact h k
      · intro h k
        intro hc
        exact h (k + 1) ((dupAtFrom_cons_succ seen xs x k).mpr hc)

theorem dupAtFrom_nil_seen {α : Type} (l : List α) (k : Nat) :
    dupAtFrom [] l k ↔ dupAt l k := by
  simp [dupAtFrom, dupAt]

theorem first_duplicate_element_eq_some_iff {α : Type} [DecidableEq α]
    (l : List α) (i : Nat) :
    first_duplicate_element l = some i ↔ isFirstDup l i := by
  unfold first_duplicate_element isFirstDup
  rw [fdeAux_eq_some_iff]
  constructor
  · rintro ⟨k, hk, hd, hmin⟩
    have hik : i = k := by omega
    subst hik
    exact ⟨(dupAtFrom_nil_seen l i).mp hd,
      fun j hj hc => hmin j hj ((dupAtFrom_nil_seen l j).mpr hc)⟩
  · rintro ⟨hd, hmin⟩
    exact ⟨i, by omega, (dupAtFrom_nil_seen l i).mpr hd,
      fun j hj hc => hmin j hj ((dupAtFrom_nil_seen l j).mp hc)⟩

theorem forall_not_dupAt_iff_nodup {α : Type} (l : List α) :
    (∀ k, ¬ dupAt l k) ↔ l.Nodup := by
  induction l with
  | nil =>
    simp only [List.nodup_nil, iff_true]
    intro k
    rintro ⟨x, hx, _⟩
    simp at hx
  | cons x xs ih =>
    rw [List.nodup_cons, ← ih]
    constructor
    · intro h
      constructor
      · intro hmem
        obtain ⟨k, hk⟩ := List.mem_iff_getElem?.mp hmem
        refine h (k + 1) ⟨x, ?_, ?_⟩
        · simpa using hk
        · simp [List.take_succ_cons]
      · intro k
        rintro ⟨y, hy, hmem⟩
        refine h (k + 1) ⟨y, ?_, ?_⟩
        · simpa using hy
        · simp only [List.take_succ_cons, List.mem_cons]
          exact Or.inr hmem
    · rintro ⟨hx, h⟩ k
      rintro ⟨y, hy, hmem⟩
      cases k with
      | zero => simp at hmem
      | succ k =>
        simp only [List.getElem?_cons_succ] at hy
        simp only [List.take_succ_cons, List.mem_cons] at hmem
        rcases hmem with rfl | hmem
        · exact hx (List.mem_iff_getElem?.mpr ⟨k, hy⟩)
        · exact h k ⟨y, hy, hmem⟩

theorem first_duplicate_element_eq_none_iff {α : Type} [DecidableEq α] (l : List α) :
    first_duplicate_element l = none ↔ l.Nodup := by
  unfold first_duplicate_element
  rw [fdeAux_eq_none_iff, ← forall_not_dupAt_iff_nodup]
  constructor
  · intro h k hc
    exact h k ((dupAtFrom_nil_seen l k).mpr hc)
  · intro h k hc
    exact h k ((dupAtFrom_nil_seen l k).mp hc)

theorem first_duplicate_element_isSome_iff {α : Type} [DecidableEq α] (l : List α) :
    (first_duplicate_element l).isSome = true ↔ ¬ l.Nodup := by
  rw [← first_duplicate_element_eq_none_iff]
  cases first_duplicate_element l <;> simp

theorem findIdxB_eq_some_iff {α : Type} (p : α → Bool) :
    ∀ (l : List α) (i : Nat),
      findIdxB p l = some i ↔
        (∃ x, l[i]? = some x ∧ p x = true) ∧
          ∀ j, j < i → ∀ y, l[j]? = some y → p y = false := by
  intro l
  induction l with
  | nil =>
    intro i
    simp [findIdxB]
  | cons x xs ih =>
    intro i
    by_cases hp : p x
    · simp only [findIdxB, if_pos hp]
      constructor
      · intro h
        injection h with h
        subst h
        exact ⟨⟨x, by simp, hp⟩, fun j hj => absurd hj (Nat.not_lt_zero j)⟩
      · rintro ⟨⟨y, hy, hpy⟩, hmin⟩
        cases i with
        | zero => rfl
        | succ i =>
          have := hmin 0 (Nat.succ_pos i) x (by simp)
          rw [hp] at this
          exact Bool.noConfusion this
    · simp only [findIdxB, if_neg hp]
      constructor
      · intro h
        rcases Option.map_eq_some'.mp h with ⟨k, hk, hki⟩
        rcases (ih k).mp hk with ⟨⟨y, hy, hpy⟩, hmin⟩
        subst hki
        refine ⟨⟨y, by simpa using hy, hpy⟩, ?_⟩
        intro j hj z hz
        cases j with
        | zero =>
          simp only [List.getElem?_cons_zero] at hz
          injection hz with hz
          subst hz
          exact Bool.of_not_eq_true hp
        | succ j =>
          simp only [List.getElem?_cons_succ] at hz
          exact hmin j (by omega) z hz
      · rintro ⟨⟨y, hy, hpy⟩, hmin⟩
        cases i with
        | zero =>
          simp only [List.getElem?_cons_zero] at hy
          injection hy with hy
          subst hy
          rw [hpy] at hp
          exact absurd rfl hp
        | succ i =>
          simp only [List.getElem?_cons_succ] at hy
          refine Option.map_eq_some'.mpr ⟨i, (ih i).mpr ⟨⟨y, hy, hpy⟩, ?_⟩, rfl⟩
          intro j hj z hz
          exact hmin (j + 1) (by omega) z (by simpa using hz)

theorem findIdxB_eq_none_iff {α : Type} (p : α → Bool) :
    ∀ l : List α, findIdxB p l = none ↔ ∀ x ∈ l, p x = false := by
  intro l
  induction l with
  | nil => simp [findIdxB]
  | cons x xs ih =>
    by_cases hp : p x
    · simp [findIdxB, if_pos hp, hp]
    · simp only [findIdxB, if_neg hp, Option.map_eq_none', ih, List.mem_cons]
      constructor
      · intro h y hy
        rcases hy with rfl | hy
        · exact Bool.of_not_eq_true hp
        · exact h y hy
      · intro h y hy
        exact h y (Or.inr hy)

theorem findIdxB_range_eq_some_iff (p : Nat → Bool) (n i : Nat) :
    findIdxB p (List.range n) = some i ↔
      i < n ∧ p i = true ∧ ∀ j, j < i → p j = false := by
  rw [findIdxB_eq_some_iff]
  constructor
  · rintro ⟨⟨x, hx, hpx⟩, hmin⟩
    have hin : i < n := by
      by_contra hge
      rw [List.getElem?_eq_none (by simpa [List.length_range] using hge)] at hx
      exact Option.noConfusion hx
    rw [List.getElem?_range hin] at hx
    injection hx with hx
    subst hx
    refine ⟨hin, hpx, ?_⟩
    intro j hj
    exact hmin j hj j (List.getElem?_range (by omega))
  · rintro ⟨hin, hpi, hmin⟩
    refine ⟨⟨i, List.getElem?_range hin, hpi⟩, ?_⟩
    intro j hj y hy
    rw [List.getElem?_range (by omega)] at hy
    injection hy with hy
    subst hy
    exact hmin j hj

theorem findIdxB_range_eq_none_iff (p : Nat → Bool) (n : Nat) :
    findIdxB p (List.range n) = none ↔ ∀ x, x < n → p x = false := by
  rw [findIdxB_eq_none_iff]
  constructor
  · intro h x hx
    exact h x (List.mem_range.mpr hx)
  · intro h x hx
    exact h x (List.mem_range.mp hx)

theorem firstSome_eq_some_of {α : Type} :
    ∀ (l : List (Option α)) (n : Nat) (e : α),
      (∀ j, j < n → l.getD j none = none) → l.getD n none = some e →
        firstSome l = some e := by
  intro l
  induction l with
  | nil =>
    intro n e _ h2
    simp [List.getD] at h2
  | cons o rest ih =>
    intro n e h1 h2
    cases o with
    | some x =>
      cases n with
      | zero =>
        simp only [List.getD_cons_zero] at h2
        rw [h2]
        rfl
      | succ n =>
        have := h1 0 (Nat.succ_pos n)
        simp only [List.getD_cons_zero] at this
        exact Option.noConfusion this
    | none =>
      show firstSome rest = some e
      cases n with
      | zero =>
        simp only [List.getD_cons_zero] at h2
        exact Option.noConfusion h2
      | succ n =>
        refine ih n e ?_ (by simpa using h2)
        intro j hj
        have := h1 (j + 1) (by omega)
        simpa using this

theorem firstSome_eq_none_iff {α : Type} :
    ∀ l : List (Option α), firstSome l = none ↔ ∀ j, l.getD j none = none := by
  intro l
  induction l with
  | nil => simp [firstSome, List.getD]
  | cons o rest ih =>
    cases o with
    | some x =>
      constructor
      · intro h
        exact Option.noConfusion h
      · intro h
        have := h 0
        simp only [List.getD_cons_zero] at this
        exact Option.noConfusion this
    | none =>
      show firstSome rest = none ↔ _
      rw [ih]
      constructor
      · intro h j
        cases j with
        | zero => simp
        | succ j => simpa using h j
      · intro h j
        have := h (j + 1)
        simpa using this

theorem lt_length_of_getElem?_eq_some {α : Type} {l : List α} {n : Nat} {a : α}
    (h : l[n]? = some a) : n < l.length := by
  by_contra hge
  rw [List.getElem?_eq_none (by omega)] at h
  exact Option.noConfusion h

theorem getD_eq_of_getElem?_eq_some {α : Type} {l : List α} {n : Nat} {a : α}
    (d : α) (h : l[n]? = some a) : l.getD n d = a := by
  rw [List.getD_eq_getElem?_getD, h]
  rfl

theorem verify_eq_error_of (m : CompiledModule) (n : Nat) (e : VMStatus)
    (h1 : passesFirst n m) (h2 : (checkResults m).getD n none = some e) :
    verify m = Except.error e := by
  unfold verify
  rw [firstSome_eq_some_of (checkResults m) n e h1 h2]

theorem verify_eq_ok_iff (m : CompiledModule) :
    verify m = Except.ok () ↔ ∀ j, (checkResults m).getD j none = none := by
  rw [← firstSome_eq_none_iff]
  unfold verify
  cases hf : firstSome (checkResults m) with
  | none => simp [hf]
  | some e => simp [hf]

theorem structFieldsOk_of_native {sd : StructDefinition}
    (hfi : sd.field_information = StructFieldInformation.Native) : structFieldsOk sd :=
  Or.inl hfi

theorem structFieldsOk_declared_iff {sd : StructDefinition} {fields : List FieldDefinition}
    (hfi : sd.field_information = StructFieldInformation.Declared fields) :
    structFieldsOk sd ↔ fields ≠ [] ∧ (fields.map FieldDefinition.name).Nodup := by
  constructor
  · rintro (h1 | ⟨gs, hgs, hne, hnd⟩)
    · exact StructFieldInformation.noConfusion (h1.symm.trans hfi)
    · have hd := hgs.symm.trans hfi
      injection hd with hd
      subst hd
      exact ⟨hne, hnd⟩
  · rintro ⟨hne, hnd⟩
    exact Or.inr ⟨fields, hfi, hne, hnd⟩

theorem checkFieldsAux_cons_native {sd : StructDefinition} {rest : List StructDefinition}
    {idx : Nat} (hfi : sd.field_information = StructFieldInformation.Native) :
    checkFieldsAux (sd :: rest) idx = checkFieldsAux rest (idx + 1) := by
  simp [checkFieldsAux, hfi]

theorem checkFieldsAux_cons_empty {sd : StructDefinition} {rest : List StructDefinition}
    {idx : Nat} (hfi : sd.field_information = StructFieldInformation.Declared []) :
    checkFieldsAux (sd :: rest) idx =
      some (verification_error IndexKind.StructDefinition idx StatusCode.ZERO_SIZED_STRUCT) := by
  simp [checkFieldsAux, hfi]

theorem checkFieldsAux_cons_declared {sd : StructDefinition} {rest : List StructDefinition}
    {idx : Nat} {f : FieldDefinition} {fs : List FieldDefinition}
    (hfi : sd.field_information = StructFieldInformation.Declared (f :: fs)) :
    checkFieldsAux (sd :: rest) idx =
      match first_duplicate_element ((f :: fs).map FieldDefinition.name) with
      | some i => some (verification_error IndexKind.FieldDefinition i StatusCode.DUPLICATE_ELEMENT)
      | none => checkFieldsAux rest (idx + 1) := by
  simp [checkFieldsAux, hfi]

theorem checkFieldsAux_cons_ok {sd : StructDefinition} {rest : List StructDefinition}
    {idx : Nat} (hok : structFieldsOk sd) :
    checkFieldsAux (sd :: rest) idx = checkFieldsAux rest (idx + 1) := by
  rcases hok with h1 | ⟨fields, hfs, hne, hnd⟩
  · exact checkFieldsAux_cons_native h1
  · rcases fields with _ | ⟨f, fs⟩
    · exact absurd rfl hne
    · rw [checkFieldsAux_cons_declared hfs,
        (first_duplicate_element_eq_none_iff _).mpr hnd]

theorem checkFieldsAux_eq_none_iff :
    ∀ (defs : List StructDefinition) (idx : Nat),
      checkFieldsAux defs idx = none ↔ ∀ sd ∈ defs, structFieldsOk sd := by
  intro defs
  induction defs with
  | nil =>
    intro idx
    simp [checkFieldsAux]
  | cons sd rest ih =>
    intro idx
    by_cases hok : structFieldsOk sd
    · rw [checkFieldsAux_cons_ok hok, ih (idx + 1)]
      constructor
      · intro h y hy
        rcases List.mem_cons.mp hy with rfl | hy
        · exact hok
        · exact h y hy
      · intro h y hy
        exact h y (List.mem_cons_of_mem sd hy)
    · constructor
      · intro h
        exfalso
        rcases hfi : sd.field_information with _ | fields
        · exact hok (structFieldsOk_of_native hfi)
        · rcases fields with _ | ⟨f, fs⟩
          · rw [checkFieldsAux_cons_empty hfi] at h
            exact Option.noConfusion h
          · rw [checkFieldsAux_cons_declared hfi] at h
            rcases hdup : first_duplicate_element ((f :: fs).map FieldDefinition.name) with _ | i
            · exact hok ((structFieldsOk_declared_iff hfi).mpr
                ⟨by simp, (first_duplicate_element_eq_none_iff _).mp hdup⟩)
            · rw [hdup] at h
              exact Option.noConfusion h
      · intro h
        exact absurd (h sd (List.mem_cons_self sd rest)) hok

theorem checkFieldsAux_zero_sized :
    ∀ (defs : List StructDefinition) (idx p : Nat) (sd : StructDefinition),
      defs[p]? = some sd →
      sd.field_information = StructFieldInformation.Declared [] →
      (∀ q, q < p → structFieldsOk (defs.getD q default)) →
      checkFieldsAux defs idx =
        some (verification_error IndexKind.StructDefinition (idx + p) StatusCode.ZERO_SIZED_STRUCT) := by
  intro defs
  induction defs with
  | nil =>
    intro idx p sd hp
    simp at hp
  | cons d rest ih =>
    intro idx p sd hp hfi hprev
    cases p with
    | zero =>
      simp only [List.getElem?_cons_zero] at hp
      injection hp with hp
      subst hp
      rw [checkFieldsAux_cons_empty hfi]
      rfl
    | succ p =>
      simp only [List.getElem?_cons_succ] at hp
      have hd := hprev 0 (Nat.succ_pos p)
      simp only [List.getD_cons_zero] at hd
      have hrec := ih (idx + 1) p sd hp hfi (fun q hq => by
        have := hprev (q + 1) (by omega)
        simpa using this)
      have heq : idx + 1 + p = idx + (p + 1) := by omega
      rw [heq] at hrec
      rw [checkFieldsAux_cons_ok hd]
      exact hrec

theorem checkFieldsAux_dup_field :
    ∀ (defs : List StructDefinition) (idx p : Nat) (sd : StructDefinition)
      (fields : List FieldDefinition) (j : Nat),
      defs[p]? = some sd →
      sd.field_information = StructFieldInformation.Declared fields →
      fields ≠ [] →
      first_duplicate_element (fields.map FieldDefinition.name) = some j →
      (∀ q, q < p → structFieldsOk (defs.getD q default)) →
      checkFieldsAux defs idx =
        some (verification_error IndexKind.FieldDefinition j StatusCode.DUPLICATE_ELEMENT) := by
  intro defs
  induction defs with
  | nil =>
    intro idx p sd fields j hp
    simp at hp
  | cons d rest ih =>
    intro idx p sd fields j hp hfi hne hdup hprev
    cases p with
    | zero =>
      simp only [List.getElem?_cons_zero] at hp
      injection hp with hp
      subst hp
      rcases fields with _ | ⟨f, fs⟩
      · exact absurd rfl hne
      · rw [checkFieldsAux_cons_declared hfi, hdup]
    | succ p =>
      simp only [List.getElem?_cons_succ] at hp
      have hd := hprev 0 (Nat.succ_pos p)
      simp only [List.getD_cons_zero] at hd
      rw [checkFieldsAux_cons_ok hd]
      exact ih (idx + 1) p sd fields j hp hfi hne hdup (fun q hq => by
        have := hprev (q + 1) (by omega)
        simpa using this)

theorem checkResults_getD_0 (m : CompiledModule) :
    (checkResults m).getD 0 none = dupIdentifiers m := rfl

theorem checkResults_getD_1 (m : CompiledModule) :
    (checkResults m).getD 1 none = dupConstants m := rfl

theorem checkResults_getD_2 (m : CompiledModule) :
    (checkResults m).getD 2 none = dupSignatures m := rfl

theorem checkResults_getD_3 (m : CompiledModule) :
    (checkResults m).getD 3 none = dupModuleHandles m := rfl

theorem checkResults_getD_4 (m : CompiledModule) :
    (checkResults m).getD 4 none = dupStructHandles m := rfl

theorem checkResults_getD_5 (m : CompiledModule) :
    (checkResults m).getD 5 none = dupFunctionHandles m := rfl

theorem checkResults_getD_6 (m : CompiledModule) :
    (checkResults m).getD 6 none = dupFieldHandles m := rfl

theorem checkResults_getD_7 (m : CompiledModule) :
    (checkResults m).getD 7 none = dupStructInstantiations m := rfl

theorem checkResults_getD_8 (m : CompiledModule) :
    (checkResults m).getD 8 none = dupFunctionInstantiations m := rfl

theorem checkResults_getD_9 (m : CompiledModule) :
    (checkResults m).getD 9 none = dupFieldInstantiations m := rfl

theorem checkResults_getD_10 (m : CompiledModule) :
    (checkResults m).getD 10 none = dupStructDefs m := rfl

theorem checkResults_getD_11 (m : CompiledModule) :
    (checkResults m).getD 11 none = dupFunctionDefs m := rfl

theorem checkResults_getD_12 (m : CompiledModule) :
    (checkResults m).getD 12 none = checkAcquires m := rfl

theorem checkResults_getD_13 (m : CompiledModule) :
    (checkResults m).getD 13 none = checkFields m := rfl

theorem checkResults_getD_14 (m : CompiledModule) :
    (checkResults m).getD 14 none = checkStructOwners m := rfl

theorem checkResults_getD_15 (m : CompiledModule) :
    (checkResults m).getD 15 none = checkFunctionOwners m := rfl

theorem checkResults_getD_16 (m : CompiledModule) :
    (checkResults m).getD 16 none = checkStructTotality m := rfl

theorem checkResults_getD_17 (m : CompiledModule) :
    (checkResults m).getD 17 none = checkFunctionTotality m := rfl

theorem structUnimplPred_eq_true_iff (m : CompiledModule)
    (hlen : m.struct_handles.length ≤ 65536) (x : Nat)
    (hx : x < m.struct_handles.length) :
    structUnimplPred m x = true ↔ structUnimpl m x := by
  have hmod : x % 65536 = x := Nat.mod_eq_of_lt (lt_of_lt_of_le hx hlen)
  unfold structUnimplPred structUnimpl
  rw [hmod, Bool.and_eq_true, beq_iff_eq, Bool.not_eq_true']
  constructor
  · rintro ⟨hm, hc⟩
    refine ⟨hx, hm, ?_⟩
    intro d hd hdx
    have hmem : x ∈ m.struct_defs.map StructDefinition.struct_handle :=
      List.mem_map.mpr ⟨d, hd, hdx⟩
    rw [show (m.struct_defs.map StructDefinition.struct_handle).contains x = true by
      simpa using hmem] at hc
    exact Bool.noConfusion hc
  · rintro ⟨_, hm, hnd⟩
    refine ⟨hm, ?_⟩
    by_contra hne
    rw [Bool.not_eq_false] at hne
    have hmem : x ∈ m.struct_defs.map StructDefinition.struct_handle := by
      simpa using hne
    rcases List.mem_map.mp hmem with ⟨d, hd, hdx⟩
    exact hnd d hd hdx

theorem checkStructTotality_eq_some_of (m : CompiledModule)
    (hlen : m.struct_handles.length ≤ 65536) (p : Nat)
    (hp : structUnimpl m p) (hmin : ∀ q, q < p → ¬ structUnimpl m q) :
    checkStructTotality m =
      some (verification_error IndexKind.StructHandle p StatusCode.UNIMPLEMENTED_HANDLE) := by
  unfold checkStructTotality
  have hfind : findIdxB (fun x => structUnimplPred m x) (List.range m.struct_handles.length) =
      some p := by
    rw [findIdxB_range_eq_some_iff]
    refine ⟨hp.1, (structUnimplPred_eq_true_iff m hlen p hp.1).mpr hp, ?_⟩
    intro j hj
    cases hpj : structUnimplPred m j with
    | false => rfl
    | true =>
      have hplen := hp.1
      exact absurd ((structUnimplPred_eq_true_iff m hlen j (by omega)).mp hpj) (hmin j hj)
  rw [hfind]
  rfl

theorem checkStructTotality_eq_none_of (m : CompiledModule)
    (hall : ∀ x, x < m.struct_handles.length → structUnimplPred m x = false) :
    checkStructTotality m = none := by
  unfold checkStructTotality
  rw [(findIdxB_range_eq_none_iff _ _).mpr hall]
  rfl

theorem bigModule_struct_handles_eq :
    bigModule.struct_handles = (List.range 65537).map bigHandleFn := by
  simp only [bigModule]

theorem bigModule_struct_handles_length : bigModule.struct_handles.length = 65537 := by
  rw [bigModule_struct_handles_eq, List.length_map, List.length_range]

theorem bigModule_handle_at (y : Nat) (hy : y < 65537) :
    struct_handle_at bigModule y = bigHandleFn y := by
  unfold struct_handle_at
  apply getD_eq_of_getElem?_eq_some
  rw [bigModule_struct_handles_eq, List.getElem?_map, List.getElem?_range hy]
  rfl

theorem dupStructHandles_bigModule : dupStructHandles bigModule = none := by
  unfold dupStructHandles
  have hnd : (structHandleKeys bigModule).Nodup := by
    unfold structHandleKeys
    rw [bigModule_struct_handles_eq, List.map_map]
    refine List.Nodup.map ?_ (List.nodup_range 65537)
    intro a b h
    exact congrArg Prod.snd h
  rw [(first_duplicate_element_eq_none_iff _).mpr hnd]
  rfl

theorem checkStructTotality_bigModule : checkStructTotality bigModule = none := by
  apply checkStructTotality_eq_none_of
  intro x hx
  rw [bigModule_struct_handles_length] at hx
  unfold structUnimplPred
  have hylt : x % 65536 < 65536 := Nat.mod_lt x (by omega)
  rw [bigModule_handle_at (x % 65536) (by omega)]
  rw [show bigHandleFn (x % 65536) = ⟨1, x % 65536, 0⟩ by
    unfold bigHandleFn
    rw [if_neg (by omega)]]
  rfl

theorem passesFirst16_bigModule : passesFirst 16 bigModule := by
  intro j hj
  interval_cases j
  · rfl
  · rfl
  · rfl
  · rfl
  · rw [checkResults_getD_4 bigModule]
    exact dupStructHandles_bigModule
  · rfl
  · rfl
  · rfl
  · rfl
  · rfl
  · rfl
  · rfl
  · rfl
  · rfl
  · rfl
  · rfl

theorem verify_eq_ok_of_firstSome_none (m : CompiledModule)
    (h : firstSome (checkResults m) = none) : verify m = Except.ok () := by
  unfold verify
  rw [h]

theorem verify_bigModule : verify bigModule = Except.ok () := by
  apply verify_eq_ok_of_firstSome_none
  show firstSome [dupIdentifiers bigModule, dupConstants bigModule, dupSignatures bigModule,
    dupModuleHandles bigModule, dupStructHandles bigModule, dupFunctionHandles bigModule,
    dupFieldHandles bigModule, dupStructInstantiations bigModule,
    dupFunctionInstantiations bigModule, dupFieldInstantiations bigModule,
    dupStructDefs bigModule, dupFunctionDefs bigModule, checkAcquires bigModule,
    checkFields bigModule, checkStructOwners bigModule, checkFunctionOwners bigModule,
    checkStructTotality bigModule, checkFunctionTotality bigModule] = none
  rw [dupStructHandles_bigModule, checkStructTotality_bigModule]
  rfl

theorem structUnimpl_bigModule : structUnimpl bigModule 65536 := by
  refine ⟨?_, ?_, ?_⟩
  · rw [bigModule_struct_handles_length]
    omega
  · rw [bigModule_handle_at 65536 (by omega)]
    show (bigHandleFn 65536).module = bigModule.self_handle_idx
    unfold bigHandleFn
    rw [if_pos rfl]
    rfl
  · intro d hd
    exact absurd hd (List.not_mem_nil d)

theorem first_duplicate_element_isSome_eq_false_iff {α : Type} [DecidableEq α] (l : List α) :
    (first_duplicate_element l).isSome = false ↔ l.Nodup := by
  rw [← first_duplicate_element_eq_none_iff]
  cases first_duplicate_element l <;> simp

/-- C3: for every finite sequence of equality-comparable keys,
`first_duplicate_element` returns `some i` iff position `i` repeats an
earlier element and no earlier position does (the second occurrence of the
first value observed to repeat in a left-to-right scan), and returns `none`
iff all elements are pairwise distinct. -/
theorem C3_duplication_scanner {α : Type} [DecidableEq α] (l : List α) :
    (∀ i, first_duplicate_element l = some i ↔ isFirstDup l i)
    ∧ (first_duplicate_element l = none ↔ l.Nodup) :=
  ⟨fun i => first_duplicate_element_eq_some_iff l i,
   first_duplicate_element_eq_none_iff l⟩

/-- C4: `verify` runs its checks in the fixed source order recorded by
`checkResults` (twelve table scans, acquires, field rules, the two ownership
scans, the two totality scans); whenever all checks before position `i` pass
and check `i` fails with `e`, the returned violation is `e`, and `verify`
succeeds iff every check passes. -/
theorem C4_check_order (m : CompiledModule) :
    (∀ i e, (∀ j, j < i → (checkResults m).getD j none = none) →
      (checkResults m).getD i none = some e → verify m = Except.error e)
    ∧ (verify m = Except.ok () ↔ ∀ j, (checkResults m).getD j none = none) :=
  ⟨fun i e h1 h2 => verify_eq_error_of m i e h1 h2, verify_eq_ok_iff m⟩

/-- Witness for C4: on a module whose identifier table is `[7, 7]`, the
earliest failing check (the identifier scan, position 0) determines the
result. -/
theorem C4_check_order_witness :
    verify exDupIdent =
      Except.error (verification_error IndexKind.Identifier 1 StatusCode.DUPLICATE_ELEMENT) :=
  (C4_check_order exDupIdent).1 0
    (verification_error IndexKind.Identifier 1 StatusCode.DUPLICATE_ELEMENT)
    (fun j hj => absurd hj (Nat.not_lt_zero j)) (by decide)

/-- C9: `verify` is deterministic — two runs on the same unmodified module
value yield identical results, either both the same violation triple or both
success. -/
theorem C9_determinism (m m' : CompiledModule) (h : m = m') :
    verify m = verify m'
    ∧ ((∃ e, verify m = Except.error e ∧ verify m' = Except.error e)
        ∨ (verify m = Except.ok () ∧ verify m' = Except.ok ())) := by
  subst h
  refine ⟨rfl, ?_⟩
  cases hv : verify m with
  | error e => exact Or.inl ⟨e, rfl, rfl⟩
  | ok u =>
    cases u
    exact Or.inr ⟨rfl, rfl⟩

/-- Witness for C9 at the empty module. -/
theorem C9_determinism_witness : verify emptyModule = verify emptyModule :=
  (C9_determinism emptyModule emptyModule rfl).1

/-- Counterexample to C2 as stated: in a module whose struct-handle keys are
`[(0,0), (0,1), (0,0), (0,1)]`, positions 1 and 3 agree on owner and name and
differ in metadata, the earlier-checked tables are duplicate-free, yet
`verify` reports index 2 (the first repeat), not index 3. -/
theorem C2_counterexample :
    passesFirst 4 exTwoDupPairs
    ∧ (structHandleKeys exTwoDupPairs)[1]? = some (0, 1)
    ∧ (structHandleKeys exTwoDupPairs)[3]? = some (0, 1)
    ∧ exTwoDupPairs.struct_handles[1]? = some ⟨0, 1, 0⟩
    ∧ exTwoDupPairs.struct_handles[3]? = some ⟨0, 1, 1⟩
    ∧ verify exTwoDupPairs =
        Except.error (verification_error IndexKind.StructHandle 2 StatusCode.DUPLICATE_ELEMENT)
    ∧ verify exTwoDupPairs ≠
        Except.error (verification_error IndexKind.StructHandle 3 StatusCode.DUPLICATE_ELEMENT) := by
  decide

/-- C2 (amended): struct/function handle uniqueness is decided by the
projection `(owning module, name)` only.  For a module whose earlier-checked
tables are duplicate-free, if `j` is the first position whose key repeats an
earlier position's key (in particular when the two handles differ in any
non-key field), `verify` reports `(DuplicateElement, StructHandle/FunctionHandle, j)`;
and when all keys are pairwise distinct the handle scan reports nothing, so
two handles differing in owner or in name are never reported as duplicates
of each other. -/
theorem C2_handle_key_uniqueness (m : CompiledModule) (j : Nat) :
    (passesFirst 4 m → isFirstDup (structHandleKeys m) j →
      verify m = Except.error (verification_error IndexKind.StructHandle j StatusCode.DUPLICATE_ELEMENT))
    ∧ (passesFirst 5 m → isFirstDup (functionHandleKeys m) j →
      verify m = Except.error (verification_error IndexKind.FunctionHandle j StatusCode.DUPLICATE_ELEMENT))
    ∧ ((structHandleKeys m).Nodup → dupStructHandles m = none)
    ∧ ((functionHandleKeys m).Nodup → dupFunctionHandles m = none) := by
  refine ⟨?_, ?_, ?_, ?_⟩
  · intro hpass hdup
    apply verify_eq_error_of m 4 _ hpass
    rw [checkResults_getD_4]
    unfold dupStructHandles
    rw [(first_duplicate_element_eq_some_iff _ _).mpr hdup]
    rfl
  · intro hpass hdup
    apply verify_eq_error_of m 5 _ hpass
    rw [checkResults_getD_5]
    unfold dupFunctionHandles
    rw [(first_duplicate_element_eq_some_iff _ _).mpr hdup]
    rfl
  · intro hnd
    unfold dupStructHandles
    rw [(first_duplicate_element_eq_none_iff _).mpr hnd]
    rfl
  · intro hnd
    unfold dupFunctionHandles
    rw [(first_duplicate_element_eq_none_iff _).mpr hnd]
    rfl

/-- Witness for C2 (amended): two same-key struct handles differing in
metadata are rejected at position 1; same for function handles; modules with
pairwise-distinct keys pass both handle scans. -/
theorem C2_handle_key_uniqueness_witness :
    verify exMetaDup =
      Except.error (verification_error IndexKind.StructHandle 1 StatusCode.DUPLICATE_ELEMENT)
    ∧ verify exMetaDupFn =
      Except.error (verification_error IndexKind.FunctionHandle 1 StatusCode.DUPLICATE_ELEMENT)
    ∧ dupStructHandles exDistinctKeys = none
    ∧ dupFunctionHandles exDistinctKeys = none := by
  refine ⟨?_, ?_, ?_, ?_⟩
  · exact (C2_handle_key_uniqueness exMetaDup 1).1 (by decide) (by decide)
  · exact (C2_handle_key_uniqueness exMetaDupFn 1).2.1 (by decide) (by decide)
  · exact (C2_handle_key_uniqueness exDistinctKeys 0).2.2.1 (by decide)
  · exact (C2_handle_key_uniqueness exDistinctKeys 0).2.2.2 (by decide)

/-- C8: acquires uniqueness is per-function.  For a module passing the
twelve table scans, the first function definition (in definition order)
whose acquires list repeats a struct-definition reference is rejected with
`(DuplicateAcquiresAnnotation, FunctionDefinition, its position)`; when
every function's acquires list is duplicate-free the check reports nothing,
so two distinct functions may acquire the same struct definition. -/
theorem C8_acquires_per_function (m : CompiledModule) (p : Nat) (f : FunctionDefinition) :
    (passesFirst 12 m →
      m.function_defs[p]? = some f →
      ¬ f.acquires_global_resources.Nodup →
      (∀ q, q < p → ((m.function_defs.getD q default).acquires_global_resources).Nodup) →
      verify m = Except.error (verification_error IndexKind.FunctionDefinition p
        StatusCode.DUPLICATE_ACQUIRES_RESOURCE_ANNOTATION_ERROR))
    ∧ ((∀ g ∈ m.function_defs, g.acquires_global_resources.Nodup) → checkAcquires m = none) := by
  constructor
  · intro hpass hp hdup hprev
    apply verify_eq_error_of m 12 _ hpass
    rw [checkResults_getD_12]
    unfold checkAcquires
    have hfind : findIdxB
        (fun fd => (first_duplicate_element fd.acquires_global_resources).isSome)
        m.function_defs = some p := by
      rw [findIdxB_eq_some_iff]
      refine ⟨⟨f, hp, ?_⟩, ?_⟩
      · show (first_duplicate_element f.acquires_global_resources).isSome = true
        rw [first_duplicate_element_isSome_iff]
        exact hdup
      · intro q hq y hy
        have hnd := hprev q hq
        rw [getD_eq_of_getElem?_eq_some default hy] at hnd
        show (first_duplicate_element y.acquires_global_resources).isSome = false
        rw [first_duplicate_element_isSome_eq_false_iff]
        exact hnd
    rw [hfind]
    rfl
  · intro hall
    unfold checkAcquires
    have hfind : findIdxB
        (fun fd => (first_duplicate_element fd.acquires_global_resources).isSome)
        m.function_defs = none := by
      rw [findIdxB_eq_none_iff]
      intro g hg
      show (first_duplicate_element g.acquires_global_resources).isSome = false
      rw [first_duplicate_element_isSome_eq_false_iff]
      exact hall g hg
    rw [hfind]
    rfl

/-- Witness for C8: a function acquiring struct definition 2 twice is
rejected at its position 1; two functions each acquiring struct definition 3
once pass the acquires check. -/
theorem C8_acquires_per_function_witness :
    verify exDupAcquires = Except.error (verification_error IndexKind.FunctionDefinition 1
      StatusCode.DUPLICATE_ACQUIRES_RESOURCE_ANNOTATION_ERROR)
    ∧ checkAcquires exSharedAcquires = none := by
  constructor
  · exact (C8_acquires_per_function exDupAcquires 1 ⟨1, [2, 2], 0⟩).1 (by decide) (by decide)
      (by decide) (by decide)
  · exact (C8_acquires_per_function exSharedAcquires 0 default).2 (by decide)

/-- Counterexample to C5 as stated: a module whose only struct definition is
owned by a non-self module handle, but which also has a duplicate
identifier, is rejected with `DuplicateElement` on the identifier table, not
with `InvalidModuleOwner` — so a non-self-owned definition is not *always*
rejected with `InvalidModuleOwner`. -/
theorem C5_counterexample :
    (struct_handle_at exOwnerPreempted
        ((exOwnerPreempted.struct_defs.getD 0 default).struct_handle)).module
      ≠ exOwnerPreempted.self_handle_idx
    ∧ verify exOwnerPreempted =
        Except.error (verification_error IndexKind.Identifier 1 StatusCode.DUPLICATE_ELEMENT)
    ∧ verify exOwnerPreempted ≠
        Except.error (verification_error IndexKind.StructDefinition 0 StatusCode.INVALID_MODULE_HANDLE) := by
  decide

/-- C5 (amended): for a module passing all checks before the ownership
scans, the first struct (resp. function) definition whose handle's owning
module is not the self handle is rejected with
`(InvalidModuleOwner, StructDefinition/FunctionDefinition, its position)`,
regardless of any other definitions in the module. -/
theorem C5_owner_rejection (m : CompiledModule) (p : Nat) (d : StructDefinition)
    (f : FunctionDefinition) :
    (passesFirst 14 m →
      m.struct_defs[p]? = some d →
      (struct_handle_at m d.struct_handle).module ≠ m.self_handle_idx →
      (∀ q, q < p →
        (struct_handle_at m ((m.struct_defs.getD q default).struct_handle)).module
          = m.self_handle_idx) →
      verify m = Except.error (verification_error IndexKind.StructDefinition p
        StatusCode.INVALID_MODULE_HANDLE))
    ∧ (passesFirst 15 m →
      m.function_defs[p]? = some f →
      (function_handle_at m f.function).module ≠ m.self_handle_idx →
      (∀ q, q < p →
        (function_handle_at m ((m.function_defs.getD q default).function)).module
          = m.self_handle_idx) →
      verify m = Except.error (verification_error IndexKind.FunctionDefinition p
        StatusCode.INVALID_MODULE_HANDLE)) := by
  constructor
  · intro hpass hp hbad hprev
    apply verify_eq_error_of m 14 _ hpass
    rw [checkResults_getD_14]
    unfold checkStructOwners
    have hfind : findIdxB
        (fun x => !((struct_handle_at m x.struct_handle).module == m.self_handle_idx))
        m.struct_defs = some p := by
      rw [findIdxB_eq_some_iff]
      refine ⟨⟨d, hp, ?_⟩, ?_⟩
      · show (!((struct_handle_at m d.struct_handle).module == m.self_handle_idx)) = true
        rw [Bool.not_eq_true', beq_eq_false_iff_ne]
        exact hbad
      · intro q hq y hy
        have hown := hprev q hq
        rw [getD_eq_of_getElem?_eq_some default hy] at hown
        show (!((struct_handle_at m y.struct_handle).module == m.self_handle_idx)) = false
        rw [Bool.not_eq_false', beq_iff_eq]
        exact hown
    rw [hfind]
    rfl
  · intro hpass hp hbad hprev
    apply verify_eq_error_of m 15 _ hpass
    rw [checkResults_getD_15]
    unfold checkFunctionOwners
    have hfind : findIdxB
        (fun x => !((function_handle_at m x.function).module == m.self_handle_idx))
        m.function_defs = some p := by
      rw [findIdxB_eq_some_iff]
      refine ⟨⟨f, hp, ?_⟩, ?_⟩
      · show (!((function_handle_at m f.function).module == m.self_handle_idx)) = true
        rw [Bool.not_eq_true', beq_eq_false_iff_ne]
        exact hbad
      · intro q hq y hy
        have hown := hprev q hq
        rw [getD_eq_of_getElem?_eq_some default hy] at hown
        show (!((function_handle_at m y.function).module == m.self_handle_idx)) = false
        rw [Bool.not_eq_false', beq_iff_eq]
        exact hown
    rw [hfind]
    rfl

/-- Witness for C5 (amended): a struct (resp. function) definition owned by
module handle 1 instead of the self handle 0 is rejected at position 0. -/
theorem C5_owner_rejection_witness :
    verify exBadStructOwner = Except.error (verification_error IndexKind.StructDefinition 0
      StatusCode.INVALID_MODULE_HANDLE)
    ∧ verify exBadFunctionOwner = Except.error (verification_error IndexKind.FunctionDefinition 0
      StatusCode.INVALID_MODULE_HANDLE) := by
  constructor
  · exact (C5_owner_rejection exBadStructOwner 0 ⟨0, StructFieldInformation.Native⟩ default).1
      (by decide) (by decide) (by decide) (by decide)
  · exact (C5_owner_rejection exBadFunctionOwner 0 default ⟨0, [], 0⟩).2
      (by decide) (by decide) (by decide) (by decide)

/-- Counterexample to C6 as stated: struct 0 declares duplicate field names
and struct 1 declares zero fields; all checks before the field loop pass,
the first (and only) zero-field declared struct sits at position 1, yet
`verify` reports the field-name duplicate of struct 0, not
`(ZeroSizedStruct, StructDefinition, 1)`. -/
theorem C6_counterexample :
    passesFirst 13 exDupThenEmpty
    ∧ exDupThenEmpty.struct_defs[1]? = some ⟨1, StructFieldInformation.Declared []⟩
    ∧ verify exDupThenEmpty =
        Except.error (verification_error IndexKind.FieldDefinition 1 StatusCode.DUPLICATE_ELEMENT)
    ∧ verify exDupThenEmpty ≠
        Except.error (verification_error IndexKind.StructDefinition 1 StatusCode.ZERO_SIZED_STRUCT) := by
  decide

/-- C6 (amended): for a module passing all checks before the per-struct
field loop, a non-native struct definition declaring zero fields is rejected
with `(ZeroSizedStruct, StructDefinition, its position)` provided every
earlier struct definition passes the per-struct field rules; a native struct
definition is skipped, so a module whose struct definitions are all native
produces no field-loop violation. -/
theorem C6_zero_field_rule (m : CompiledModule) (p : Nat) (sd : StructDefinition) :
    (passesFirst 13 m →
      m.struct_defs[p]? = some sd →
      sd.field_information = StructFieldInformation.Declared [] →
      (∀ q, q < p → structFieldsOk (m.struct_defs.getD q default)) →
      verify m = Except.error (verification_error IndexKind.StructDefinition p
        StatusCode.ZERO_SIZED_STRUCT))
    ∧ ((∀ x ∈ m.struct_defs, x.field_information = StructFieldInformation.Native) →
        checkFields m = none) := by
  constructor
  · intro hpass hp hfi hprev
    apply verify_eq_error_of m 13 _ hpass
    rw [checkResults_getD_13]
    unfold checkFields
    have := checkFieldsAux_zero_sized m.struct_defs 0 p sd hp hfi hprev
    simpa using this
  · intro hall
    unfold checkFields
    rw [checkFieldsAux_eq_none_iff]
    intro x hx
    exact structFieldsOk_of_native (hall x hx)

/-- Witness for C6 (amended): a single declared struct with zero fields is
rejected with `ZeroSizedStruct` at position 0; a module whose only struct is
native passes the field loop. -/
theorem C6_zero_field_rule_witness :
    verify exZeroField = Except.error (verification_error IndexKind.StructDefinition 0
      StatusCode.ZERO_SIZED_STRUCT)
    ∧ checkFields exNative = none := by
  constructor
  · exact (C6_zero_field_rule exZeroField 0 ⟨0, StructFieldInformation.Declared []⟩).1
      (by decide) (by decide) rfl (by decide)
  · exact (C6_zero_field_rule exNative 0 default).2 (by decide)

/-- Counterexample to C7 as stated: struct 0 declares zero fields, struct 1
declares field names `[0, 1, 0]` (the struct with the duplicate); all checks
before the field loop pass, yet `verify` reports
`(ZeroSizedStruct, StructDefinition, 0)` for the earlier struct, not
`(DuplicateElement, FieldDefinition, 2)`. -/
theorem C7_counterexample :
    passesFirst 13 exEmptyThenDup
    ∧ exEmptyThenDup.struct_defs[1]? =
        some ⟨1, StructFieldInformation.Declared [⟨0, 0⟩, ⟨1, 0⟩, ⟨0, 1⟩]⟩
    ∧ isFirstDup (([⟨0, 0⟩, ⟨1, 0⟩, ⟨0, 1⟩] : List FieldDefinition).map FieldDefinition.name) 2
    ∧ verify exEmptyThenDup =
        Except.error (verification_error IndexKind.StructDefinition 0 StatusCode.ZERO_SIZED_STRUCT)
    ∧ verify exEmptyThenDup ≠
        Except.error (verification_error IndexKind.FieldDefinition 2 StatusCode.DUPLICATE_ELEMENT) := by
  decide

/-- C7 (amended): for a module passing all checks before the per-struct
field loop, if the first struct definition failing the per-struct field
rules is a non-native, non-empty struct whose field names repeat, `verify`
returns `(DuplicateElement, FieldDefinition, i)` where `i` is the in-struct
position of the first repeated field name; a module in which every struct
passes the per-struct rules (even when different structs reuse the same
field name) produces no field-loop violation, so names are never compared
across structs. -/
theorem C7_field_name_uniqueness (m : CompiledModule) (p j : Nat) (sd : StructDefinition)
    (fields : List FieldDefinition) :
    (passesFirst 13 m →
      m.struct_defs[p]? = some sd →
      sd.field_information = StructFieldInformation.Declared fields →
      fields ≠ [] →
      isFirstDup (fields.map FieldDefinition.name) j →
      (∀ q, q < p → structFieldsOk (m.struct_defs.getD q default)) →
      verify m = Except.error (verification_error IndexKind.FieldDefinition j
        StatusCode.DUPLICATE_ELEMENT))
    ∧ ((∀ x ∈ m.struct_defs, structFieldsOk x) → checkFields m = none) := by
  constructor
  · intro hpass hp hfi hne hdup hprev
    apply verify_eq_error_of m 13 _ hpass
    rw [checkResults_getD_13]
    unfold checkFields
    exact checkFieldsAux_dup_field m.struct_defs 0 p sd fields j hp hfi hne
      ((first_duplicate_element_eq_some_iff _ _).mpr hdup) hprev
  · intro hall
    unfold checkFields
    rw [checkFieldsAux_eq_none_iff]
    exact hall

/-- Witness for C7 (amended): a struct with field names `[0, 1, 0]` is
rejected with `(DuplicateElement, FieldDefinition, 2)`; two structs reusing
the same field name across structs pass the field loop. -/
theorem C7_field_name_uniqueness_witness :
    verify exFieldDup = Except.error (verification_error IndexKind.FieldDefinition 2
      StatusCode.DUPLICATE_ELEMENT)
    ∧ checkFields exCrossStructNames = none := by
  constructor
  · exact (C7_field_name_uniqueness exFieldDup 0 2
      ⟨0, StructFieldInformation.Declared [⟨0, 0⟩, ⟨1, 0⟩, ⟨0, 1⟩]⟩
      [⟨0, 0⟩, ⟨1, 0⟩, ⟨0, 1⟩]).1
      (by decide) (by decide) rfl (by decide) (by decide) (by decide)
  · exact (C7_field_name_uniqueness exCrossStructNames 0 0 default []).2 (by decide)

/-- Counterexample to C1 as stated, in both directions.  First, a module
whose struct-handle table has 65537 entries: position 65536 holds the only
self-owned handle and nothing implements it, every earlier check passes, yet
`verify` accepts the module because the scan looks up the handle at
`65536 % 65536 = 0`.  Second, a module with two self-owned unimplemented
handles: `verify` reports position 0, but adding one struct definition
referencing handle 0 does not make the struct totality check pass — it then
fails at position 1. -/
theorem C1_counterexample :
    (passesFirst 16 bigModule ∧ structUnimpl bigModule 65536
      ∧ verify bigModule = Except.ok ())
    ∧ (passesFirst 16 exTwoUnimpl ∧ structUnimpl exTwoUnimpl 0
      ∧ verify exTwoUnimpl =
          Except.error (verification_error IndexKind.StructHandle 0 StatusCode.UNIMPLEMENTED_HANDLE)
      ∧ checkStructTotality
          { exTwoUnimpl with struct_defs := [⟨0, StructFieldInformation.Native⟩] } =
          some (verification_error IndexKind.StructHandle 1 StatusCode.UNIMPLEMENTED_HANDLE)) := by
  refine ⟨⟨passesFirst16_bigModule, structUnimpl_bigModule, verify_bigModule⟩, ?_⟩
  decide

/-- C1 (amended): for a module passing all earlier checks whose struct-handle
table has at most 65536 entries (so that the `u16` scan index is faithful),
if `p` is the smallest struct-handle position holding a self-owned handle
that no struct definition references, `verify` returns
`(UnimplementedHandle, StructHandle, p)`; and if `p` is the only such
position, adding exactly one struct definition referencing `p` makes the
struct totality check pass. -/
theorem C1_struct_totality (m : CompiledModule) (p : Nat) (d : StructDefinition) :
    m.struct_handles.length ≤ 65536 →
    passesFirst 16 m →
    structUnimpl m p →
    (∀ q, q < p → ¬ structUnimpl m q) →
    (verify m = Except.error (verification_error IndexKind.StructHandle p
        StatusCode.UNIMPLEMENTED_HANDLE)
      ∧ ((∀ q, structUnimpl m q → q = p) → d.struct_handle = p →
          checkStructTotality { m with struct_defs := m.struct_defs ++ [d] } = none)) := by
  intro hlen hpass hp hmin
  constructor
  · apply verify_eq_error_of m 16 _ hpass
    rw [checkResults_getD_16]
    exact checkStructTotality_eq_some_of m hlen p hp hmin
  · intro honly hd
    apply checkStructTotality_eq_none_of
    intro x hx
    by_contra hne
    rw [Bool.not_eq_false] at hne
    have hx' : x < m.struct_handles.length := hx
    have hun := (structUnimplPred_eq_true_iff
      { m with struct_defs := m.struct_defs ++ [d] } hlen x hx).mp hne
    obtain ⟨_, hmod, hnd⟩ := hun
    have hxp : x = p := by
      apply honly
      refine ⟨hx', hmod, ?_⟩
      intro d' hd'
      exact hnd d' (List.mem_append_left [d] hd')
    have hdx := hnd d (List.mem_append_right m.struct_defs (List.mem_singleton_self d))
    exact hdx (hd.trans hxp.symm)

/-- Witness for C1 (amended): a module with one self-owned unimplemented
struct handle is rejected at position 0, and adding the one definition for
handle 0 makes the struct totality check pass. -/
theorem C1_struct_totality_witness :
    verify exOneUnimpl = Except.error (verification_error IndexKind.StructHandle 0
      StatusCode.UNIMPLEMENTED_HANDLE)
    ∧ checkStructTotality
        { exOneUnimpl with
          struct_defs := exOneUnimpl.struct_defs ++ [⟨0, StructFieldInformation.Native⟩] } =
        none := by
  have h := C1_struct_totality exOneUnimpl 0 ⟨0, StructFieldInformation.Native⟩
    (by decide) (by decide) (by decide) (fun q hq => absurd hq (Nat.not_lt_zero q))
  refine ⟨h.1, h.2 ?_ rfl⟩
  intro q hq
  obtain ⟨hlt, _, _⟩ := hq
  have hlt1 : q < 1 := hlt
  omega

/-- C10: in the two totality scans the handle inspected at scan position `x`
(and the index tested for membership among implemented handles) is the one
at `x % 65536`, reflecting the source's `as u16` cast; consequently the
scans compare each position against the handle actually stored at that
position whenever the handle table holds at most 65536 entries. -/
theorem C10_totality_truncation (m : CompiledModule) (x : Nat) :
    structUnimplPred m x = structUnimplDirect m (x % 65536)
    ∧ functionUnimplPred m x = functionUnimplDirect m (x % 65536)
    ∧ (m.struct_handles.length ≤ 65536 → x < m.struct_handles.length →
        structUnimplPred m x = structUnimplDirect m x)
    ∧ (m.function_handles.length ≤ 65536 → x < m.function_handles.length →
        functionUnimplPred m x = functionUnimplDirect m x) := by
  refine ⟨rfl, rfl, ?_, ?_⟩
  · intro h1 h2
    unfold structUnimplPred structUnimplDirect
    rw [Nat.mod_eq_of_lt (lt_of_lt_of_le h2 h1)]
  · intro h1 h2
    unfold functionUnimplPred functionUnimplDirect
    rw [Nat.mod_eq_of_lt (lt_of_lt_of_le h2 h1)]

/-- Witness for C10 at a module with one struct handle and one function
handle. -/
theorem C10_totality_truncation_witness :
    structUnimplPred exOneUnimplBoth 0 = structUnimplDirect exOneUnimplBoth 0
    ∧ functionUnimplPred exOneUnimplBoth 0 = functionUnimplDirect exOneUnimplBoth 0 := by
  have h := C10_totality_truncation exOneUnimplBoth 0
  exact ⟨h.2.2.1 (by decide) (by decide), h.2.2.2 (by decide) (by decide)⟩
